import Mathlib

/-!
Verification of the UDP transport layer of GameNetworkingSockets
(src/steamnetworkingsockets/clientlib/steamnetworkingsockets_udp.cpp / .h),
as a shallow embedding in Lean.  Machine integers are modelled as Nat with
explicit reductions mod 2^w where the C++ code truncates; external
collaborators (siphash, protobuf parsing, the crypto layer, the global rate
limiter) appear as explicit function or Boolean parameters.
-/

namespace UdpTransport

/-- Source constant (steamnetworkingsockets_udp.cpp line 10). -/
def k_cbSteamNetworkingMinPaddedPacketSize : Nat := 512

/-- Source constant: one million microseconds, used as a second
(k_nMillion, shared header; value pinned by the spec windows of
4_000_000 us and 2_000_000 us). -/
def k_nMillion : Nat := 1000000

/-- Modelled from the spec: k_cbSteamNetworkingSocketsMaxUDPMsgLen is an
implementation constant declared outside src/; the spec only requires it to
be at least 1200.  All theorems below are insensitive to the exact value. -/
def k_cbSteamNetworkingSocketsMaxUDPMsgLen : Nat := 1300

/-- Modelled from the spec: the wire message tags are distinct constants with
bit 7 clear; exact numeric values are an implementation detail (declared in a
header outside src/). -/
def k_ESteamNetworkingUDPMsg_ChallengeRequest : Nat := 32

/-- Modelled from the spec: wire tag for ChallengeReply. -/
def k_ESteamNetworkingUDPMsg_ChallengeReply : Nat := 33

/-- Modelled from the spec: wire tag for ConnectRequest. -/
def k_ESteamNetworkingUDPMsg_ConnectRequest : Nat := 34

/-- Modelled from the spec: wire tag for ConnectOK. -/
def k_ESteamNetworkingUDPMsg_ConnectOK : Nat := 35

/-- Modelled from the spec: wire tag for ConnectionClosed. -/
def k_ESteamNetworkingUDPMsg_ConnectionClosed : Nat := 36

/-- Modelled from the spec: wire tag for NoConnection. -/
def k_ESteamNetworkingUDPMsg_NoConnection : Nat := 37

/-- Modelled from the spec: the current protocol version constant (declared
outside src/); the exact value is irrelevant to every theorem below. -/
def k_nCurrentProtocolVersion : Nat := 5

/-- Modelled from the spec: end-reason code Misc_Generic (declared outside
src/; a distinct numeric constant). -/
def k_ESteamNetConnectionEnd_Misc_Generic : Nat := 5001

/-- Modelled from the spec: end-reason code Remote_BadCrypt. -/
def k_ESteamNetConnectionEnd_Remote_BadCrypt : Nat := 4002

/-- A remote address: 16 ipv6 bytes plus a 16-bit port (netadr_t as used by
this layer). -/
structure NetAdr where
  port : Nat
  ipv6 : List Nat
deriving DecidableEq

/-- The external keyed MAC: siphash with the listener challenge secret
folded in.  The crypto library is an external collaborator, so the whole
keyed hash is a parameter; the code treats its 64-bit output opaquely. -/
abbrev SipHash := List Nat → Nat

/-- The byte image of the packed struct hashed by GenerateChallenge:
little-endian u16 time, little-endian u16 port, 16 ipv6 bytes
(steamnetworkingsockets_udp.cpp lines 251-261). -/
def challengeHashInput (nTime : Nat) (adr : NetAdr) : List Nat :=
  [nTime % 256, nTime % 65536 / 256, adr.port % 256, adr.port % 65536 / 256] ++ adr.ipv6

/-- CSteamNetworkListenSocketDirectUDP::GenerateChallenge (lines 249-264):
the 64-bit siphash of (time, addr) with the low 16 bits replaced by the
time bucket.  The masked-or of the C++ is written in Nat arithmetic:
clearing the low 16 bits is division and re-multiplication by 2^16. -/
def GenerateChallenge (sip : SipHash) (nTime : Nat) (adr : NetAdr) : Nat :=
  let nChallenge := sip (challengeHashInput nTime adr) % 2 ^ 64
  nChallenge / 2 ^ 16 * 2 ^ 16 + nTime % 2 ^ 16

/-- GetChallengeTime (lines 266-269): uint16(usecNow >> 20). -/
def GetChallengeTime (usecNow : Nat) : Nat :=
  usecNow / 2 ^ 20 % 2 ^ 16

/-- The challenge-verification prefix of Received_ConnectRequest
(lines 304-318): truncate the carried challenge to u16 to recover the time
bucket, compute the elapsed bucket count with unsigned 16-bit wraparound,
reject if it exceeds GetChallengeTime(4 seconds), then require the
recomputed challenge to equal the carried value exactly. -/
def connectRequestChallengeOK (sip : SipHash) (challenge : Nat) (adrFrom : NetAdr)
    (usecNow : Nat) : Bool :=
  let nTimeThen := challenge % 2 ^ 16
  let nElapsed := (GetChallengeTime usecNow + 2 ^ 16 - nTimeThen) % 2 ^ 16
  if GetChallengeTime (4 * k_nMillion) < nElapsed then false
  else decide (GenerateChallenge sip nTimeThen adrFrom = challenge)

/-! ## Packet codec -/

/-- The little-endian u16 msg_length of the padded-message header, read from
packet bytes 1 and 2 (struct UDPPaddedMessageHdr, lines 15-22). -/
def paddedMsgLength (pkt : List Nat) : Nat :=
  pkt.getD 1 0 + 256 * pkt.getD 2 0

/-- The protobuf body of a padded-message envelope: msg_length bytes starting
right after the 3-byte header. -/
def paddedBody (pkt : List Nat) : List Nat :=
  (pkt.drop 3).take (paddedMsgLength pkt)

/-- The ParsePaddedPacket macro (lines 89-109): fail if the packet is shorter
than the 512-byte minimum, if the header msg_length is zero (the only way an
int made from a uint16 is not positive), if header plus body overruns the
packet, or if the body does not parse; the protobuf parser for the expected
message kind is the external parameter parse. -/
def ParsePaddedPacket {M : Type} (parse : List Nat → Option M) (pkt : List Nat) :
    Option M :=
  if pkt.length < k_cbSteamNetworkingMinPaddedPacketSize then none
  else if paddedMsgLength pkt = 0 ∨ pkt.length < paddedMsgLength pkt + 3 then none
  else parse (paddedBody pkt)

/-- The byte image both SendPaddedMsg implementations build (lines 497-512 and
954-974): 3-byte header (msg id, little-endian u16 body length), the body,
then the zeroes left by the initial memset up to max(3 + body length, 512). -/
def paddedPacketBytes (nMsgID : Nat) (body : List Nat) : List Nat :=
  let base := [nMsgID % 256, body.length % 256, body.length % 65536 / 256] ++ body
  base ++ List.replicate (max base.length k_cbSteamNetworkingMinPaddedPacketSize
    - base.length) 0

/-- CSteamNetworkConnectionUDP::SendPaddedMsg (lines 954-974): refuses to
send when header plus body exceed the MTU buffer, otherwise emits the padded
byte image. -/
def connSendPaddedMsg (nMsgID : Nat) (body : List Nat) : Option (List Nat) :=
  if k_cbSteamNetworkingSocketsMaxUDPMsgLen < body.length + 3 then none
  else some (paddedPacketBytes nMsgID body)

/-- CSteamNetworkListenSocketDirectUDP::SendPaddedMsg (lines 497-512): same
byte image; the listener variant has no MTU guard (it asserts instead), so it
is modelled on the in-buffer domain, which every caller in src satisfies. -/
def listenerSendPaddedMsg (nMsgID : Nat) (body : List Nat) : List Nat :=
  paddedPacketBytes nMsgID body

/-- The plain-message envelope both SendMsg implementations build (lines
474-495 and 937-952): one tag byte then the body, refused when it exceeds the
MTU buffer. -/
def plainWire (nMsgID : Nat) (body : List Nat) : Option (List Nat) :=
  if k_cbSteamNetworkingSocketsMaxUDPMsgLen < body.length + 1 then none
  else some (nMsgID % 256 :: body)

/-! ## Protobuf wire encoding of the reply messages

The generated protobuf code is part of the repository but not under src/, so
the byte-level encoding of the reply bodies is modelled from the spec: the
bodies are protobuf-encoded messages of scalar fields, i.e. a 1-byte tag per
field (field numbers are small) followed by a base-128 varint of the value,
and length-delimited bytes for the debug string. -/

/-- Base-128 varint encoding with an explicit fuel argument (structural
recursion, so the encoder evaluates by kernel reduction); the value itself
bounds the byte count, so the fuel never runs out when it starts at the
value. -/
def varintFuel : Nat → Nat → List Nat
  | 0, n => [n % 128]
  | fuel + 1, n => if n < 128 then [n] else (n % 128 + 128) :: varintFuel fuel (n / 128)

/-- Base-128 varint encoding, 7 value bits per byte, least significant
group first, continuation bit 0x80 on every byte but the last. -/
def varint (n : Nat) : List Nat := varintFuel n n

/-- Modelled from the spec: a protobuf varint-typed field: tag byte
(field number shifted past the 3 wire-type bits) then the varint value. -/
def pbVarintField (fieldNum val : Nat) : List Nat :=
  fieldNum * 8 :: varint val

/-- Modelled from the spec: a protobuf length-delimited field. -/
def pbBytesField (fieldNum : Nat) (bs : List Nat) : List Nat :=
  (fieldNum * 8 + 2) :: varint bs.length ++ bs

/-- ASCII bytes of a debug string. -/
def strBytes (s : String) : List Nat :=
  s.data.map Char.toNat

/-! ## Message records

Parsed protobuf messages as the handlers read them.  proto2 scalar accessors
return 0 for absent fields, so plain Nat fields with 0 meaning absent match
what the C++ handlers observe; fields whose presence is tested with a
dedicated has_ accessor are Option. -/

structure MsgChallengeRequest where
  connection_id : Nat
  my_timestamp : Nat
deriving DecidableEq

structure MsgChallengeReply where
  connection_id : Nat
  challenge : Nat
  your_timestamp : Nat
  protocol_version : Nat
deriving DecidableEq

structure MsgConnectRequest where
  challenge : Nat
  client_connection_id : Nat
  ping_est_ms : Option Nat
  my_timestamp : Option Nat
deriving DecidableEq

structure MsgConnectionClosed where
  to_connection_id : Nat
  from_connection_id : Nat
  reason_code : Nat
  debug : String
deriving DecidableEq

/-- Modelled from the spec: wire body of a ChallengeReply; the handler sets
all four fields (lines 292-297).  Values are reduced to the declared protobuf
scalar widths. -/
def serializeChallengeReply (m : MsgChallengeReply) : List Nat :=
  pbVarintField 1 (m.connection_id % 2 ^ 32)
    ++ pbVarintField 2 (m.challenge % 2 ^ 64)
    ++ pbVarintField 3 (m.your_timestamp % 2 ^ 64)
    ++ pbVarintField 4 (m.protocol_version % 2 ^ 32)

/-- Modelled from the spec: wire body of a NoConnection message; each of the
two u32 connection-id fields is present exactly when the sender set it, and
every sender sets a field only when it is nonzero. -/
def serializeNoConnection (to_connection_id from_connection_id : Nat) : List Nat :=
  (if to_connection_id ≠ 0 then pbVarintField 1 (to_connection_id % 2 ^ 32) else [])
    ++ (if from_connection_id ≠ 0 then pbVarintField 2 (from_connection_id % 2 ^ 32) else [])

/-- Modelled from the spec: wire body of an outbound ConnectionClosed; the
optional connection ids and debug string are present when set. -/
def serializeConnectionClosed (to_connection_id from_connection_id : Option Nat)
    (reason_code : Nat) (debug : Option (List Nat)) : List Nat :=
  (match to_connection_id with
    | some v => pbVarintField 1 (v % 2 ^ 32)
    | none => [])
  ++ (match from_connection_id with
    | some v => pbVarintField 2 (v % 2 ^ 32)
    | none => [])
  ++ pbVarintField 3 (reason_code % 2 ^ 32)
  ++ (match debug with
    | some bs => pbBytesField 4 bs
    | none => [])

/-! ## Identities -/

/-- SteamNetworkingIdentity as this layer distinguishes it.  LocalHost is the
anonymous identity and, as in the source (SetLocalHost), belongs to the
IPAddress type family for the purposes of the IP-identity checks. -/
inductive SNIdentity
  | invalid
  | localHost
  | ipAddr (addr : NetAdr)
  | steamID (id : Nat)
  | genericString (s : String)
deriving DecidableEq

/-- The m_eType == k_ESteamNetworkingIdentityType_IPAddress test. -/
def isIPAddressType : SNIdentity → Bool
  | .localHost => true
  | .ipAddr _ => true
  | _ => false

/-- The IP-address-identity checks shared by Received_ConnectRequest (lines
359-402) and Received_ConnectOK (lines 1414-1458): a LocalHost identity
requires IP_AllowWithoutAuth and is replaced by the observed source address;
a specific IP identity requires that it was asserted by the cert.  Returns
none on a reject (report and drop). -/
def checkIPIdentity (identityRemote : SNIdentity) (bIdentityInCert : Bool)
    (allowWithoutAuth : Nat) (adrFrom : NetAdr) : Option (SNIdentity × Bool) :=
  if isIPAddressType identityRemote then
    if identityRemote = .localHost then
      if allowWithoutAuth = 0 then none
      else some (.ipAddr adrFrom, bIdentityInCert)
    else if bIdentityInCert then some (identityRemote, bIdentityInCert)
    else none
  else some (identityRemote, bIdentityInCert)

/-- The identity-extraction block shared by Received_ConnectRequest (lines
327-402) and Received_ConnectOK (lines 1382-1458).  The external extractors
are parameters: none models a parse error (r < 0), some none an absent
identity (r = 0), some (some id) a present one.  An identity absent from both
the cert and the message means LocalHost.  Returns the derived identity and
whether it was cert-asserted, or none on a reject. -/
def deriveRemoteIdentity (certIdentity msgIdentity : Option (Option SNIdentity))
    (allowWithoutAuth : Nat) (adrFrom : NetAdr) : Option (SNIdentity × Bool) :=
  match certIdentity with
  | none => none
  | some (some id) => checkIPIdentity id true allowWithoutAuth adrFrom
  | some none =>
    match msgIdentity with
    | none => none
    | some (some id) => checkIPIdentity id false allowWithoutAuth adrFrom
    | some none => checkIPIdentity .localHost false allowWithoutAuth adrFrom

/-! ## Listener demultiplexer and handshake handlers -/

/-- The listener child-connection table: key (remote identity, remote
connection id), value the remote address the child is pinned to
(m_mapChildConnections, as this file uses it). -/
abbrev ChildTable := List ((SNIdentity × Nat) × NetAdr)

/-- A reply emitted by the listener, at the level the handlers build it. -/
inductive ListenerOut
  | challengeReply (m : MsgChallengeReply)
  | connectionClosedReply (to_connection_id : Option Nat) (reason_code : Nat)
      (debug : String)
  | noConnectionReply (to_connection_id from_connection_id : Nat)
deriving DecidableEq

/-- The wire bytes of a listener reply: ChallengeReply and NoConnection go
through SendMsg (plain envelope), ConnectionClosed through SendPaddedMsg. -/
def listenerWire : ListenerOut → Option (List Nat)
  | .challengeReply m =>
    plainWire k_ESteamNetworkingUDPMsg_ChallengeReply (serializeChallengeReply m)
  | .connectionClosedReply t reason debug =>
    some (listenerSendPaddedMsg k_ESteamNetworkingUDPMsg_ConnectionClosed
      (serializeConnectionClosed t none reason (some (strBytes debug))))
  | .noConnectionReply t f =>
    plainWire k_ESteamNetworkingUDPMsg_NoConnection (serializeNoConnection t f)

/-- CSteamNetworkListenSocketDirectUDP::Received_ChallengeRequest (lines
271-298): reject a zero connection id, otherwise reply with the current
bucket challenge, echoing connection id and timestamp. -/
def Received_ChallengeRequest (sip : SipHash) (msg : MsgChallengeRequest)
    (adrFrom : NetAdr) (usecNow : Nat) : Option ListenerOut :=
  if msg.connection_id = 0 then none
  else
    let nTime := GetChallengeTime usecNow
    let nChallenge := GenerateChallenge sip nTime adrFrom
    some (.challengeReply
      ⟨msg.connection_id, nChallenge, msg.my_timestamp, k_nCurrentProtocolVersion⟩)

/-- The debug text of the duplicate-session rejection (line 422). -/
def dupSessionDebug : String := "A connection with that ID already exists."

/-- CSteamNetworkListenSocketDirectUDP::Received_ConnectRequest (lines
300-459): verify the challenge, reject a zero client connection id, derive
the remote identity, reply with a padded ConnectionClosed when the
(identity, connection id) pair already has a child, otherwise accept a new
child connection (BBeginAccept is external; its success is the parameter
acceptOk; on failure the new connection is destroyed again). -/
def Received_ConnectRequest (sip : SipHash) (allowWithoutAuth : Nat)
    (certIdentity msgIdentity : Option (Option SNIdentity)) (acceptOk : Bool)
    (tbl : ChildTable) (msg : MsgConnectRequest) (adrFrom : NetAdr)
    (usecNow : Nat) : ChildTable × Option ListenerOut :=
  if ¬ connectRequestChallengeOK sip msg.challenge adrFrom usecNow then (tbl, none)
  else if msg.client_connection_id = 0 then (tbl, none)
  else
    match deriveRemoteIdentity certIdentity msgIdentity allowWithoutAuth adrFrom with
    | none => (tbl, none)
    | some (identityRemote, _) =>
      if tbl.any fun e => e.1 = (identityRemote, msg.client_connection_id) then
        (tbl, some (.connectionClosedReply (some msg.client_connection_id)
          k_ESteamNetConnectionEnd_Misc_Generic dupSessionDebug))
      else if acceptOk then
        (((identityRemote, msg.client_connection_id), adrFrom) :: tbl, none)
      else (tbl, none)

/-- CSteamNetworkListenSocketDirectUDP::Received_ConnectionClosed (lines
461-472): ack with a NoConnection echoing the ids, each set only when the
inbound value is nonzero (absent encodes as zero in the reply record). -/
def listenerReceived_ConnectionClosed (msg : MsgConnectionClosed) : ListenerOut :=
  .noConnectionReply msg.from_connection_id msg.to_connection_id

/-- CSteamNetworkListenSocketDirectUDP::ReceivedFromUnknownHost (lines
182-247): drop runts, ignore stray data packets (bit 7 of byte 0), dispatch
ChallengeRequest and ConnectionClosed through the padded-envelope parser and
ConnectRequest through the plain protobuf parser, drop NoConnection and any
other lead byte.  The protobuf parsers are external parameters.  Returns the
updated child table and the reply, if any. -/
def ReceivedFromUnknownHost (sip : SipHash) (allowWithoutAuth : Nat)
    (parseChallengeRequest : List Nat → Option MsgChallengeRequest)
    (parseConnectRequest : List Nat → Option MsgConnectRequest)
    (parseConnectionClosed : List Nat → Option MsgConnectionClosed)
    (certIdentity msgIdentity : Option (Option SNIdentity)) (acceptOk : Bool)
    (tbl : ChildTable) (pkt : List Nat) (adrFrom : NetAdr) (usecNow : Nat) :
    ChildTable × Option ListenerOut :=
  if pkt.length < 5 then (tbl, none)
  else if (pkt.getD 0 0).testBit 7 then (tbl, none)
  else if pkt.getD 0 0 = k_ESteamNetworkingUDPMsg_ChallengeRequest then
    match ParsePaddedPacket parseChallengeRequest pkt with
    | none => (tbl, none)
    | some m => (tbl, Received_ChallengeRequest sip m adrFrom usecNow)
  else if pkt.getD 0 0 = k_ESteamNetworkingUDPMsg_ConnectRequest then
    match parseConnectRequest (pkt.drop 1) with
    | none => (tbl, none)
    | some m =>
      Received_ConnectRequest sip allowWithoutAuth certIdentity msgIdentity
        acceptOk tbl m adrFrom usecNow
  else if pkt.getD 0 0 = k_ESteamNetworkingUDPMsg_ConnectionClosed then
    match ParsePaddedPacket parseConnectionClosed pkt with
    | none => (tbl, none)
    | some m => (tbl, some (listenerReceived_ConnectionClosed m))
  else (tbl, none)

/-! ## Connection state machine -/

/-- ESteamNetworkingConnectionState. -/
inductive ConnState
  | stateNone
  | connecting
  | findingRoute
  | connected
  | closedByPeer
  | finWait
  | problemDetectedLocally
  | linger
  | dead
deriving DecidableEq

/-- The CSteamNetworkConnectionUDP fields this layer reads and writes. -/
structure UdpConn where
  state : ConnState
  localCID : Nat
  remoteCID : Nat
  remoteIdentity : SNIdentity
  endReason : Nat
  endDebug : String
deriving DecidableEq

/-- A message emitted by a connection, at the level the senders build it.
Zero in a NoConnection id field encodes an absent field. -/
inductive ConnOut
  | noConnection (to_connection_id from_connection_id : Nat)
  | connectionClosed (to_connection_id from_connection_id reason_code : Nat)
      (debug : String)
  | connectOKResend
deriving DecidableEq

/-- CSteamNetworkConnectionUDP::SendNoConnection (lines 1644-1657): refuse
when both ids are zero, else send a plain NoConnection with each id field
set only when nonzero. -/
def SendNoConnection (unFromConnectionID unToConnectionID : Nat) : Option ConnOut :=
  if unFromConnectionID = 0 ∧ unToConnectionID = 0 then none
  else some (.noConnection unToConnectionID unFromConnectionID)

/-- CSteamNetworkConnectionUDP::SendConnectionClosedOrNoConnection (lines
1623-1642): a NoConnection ack when the peer already closed, otherwise a
padded ConnectionClosed carrying the local end reason and debug text. -/
def SendConnectionClosedOrNoConnection (c : UdpConn) : Option ConnOut :=
  if c.state = .closedByPeer then SendNoConnection c.localCID c.remoteCID
  else some (.connectionClosed c.remoteCID c.localCID c.endReason c.endDebug)

/-- The little-endian u32 to_connection_id of a data packet, bytes 1-4
(struct UDPDataMsgHdr, lines 24-38). -/
def dataToConnectionID (pkt : List Nat) : Nat :=
  pkt.getD 1 0 + 256 * pkt.getD 2 0 + 65536 * pkt.getD 3 0 + 16777216 * pkt.getD 4 0

/-- The outcome of Received_Data that this layer decides: the (unchanged or
unchanged-by-this-path) connection, the reply, and whether the decrypt path
was entered (decryption, SNP and stats are external collaborators). -/
structure DataEffect where
  conn : UdpConn
  out : Option ConnOut
  enteredDecrypt : Bool
deriving DecidableEq

/-- CSteamNetworkConnectionUDP::Received_Data (lines 1162-1275): drop
packets shorter than the 7-byte data header; on a connection-id mismatch,
report and reply NoConnection{from = received to-id, to = 0} only if the
global spam rate limiter (external, parameter rateLimitOK) permits; else
dispatch by state, entering the decrypt path only when Connected. -/
def Received_Data (c : UdpConn) (pkt : List Nat) (rateLimitOK : Bool) : DataEffect :=
  if pkt.length < 7 then ⟨c, none, false⟩
  else if dataToConnectionID pkt ≠ c.localCID then
    ⟨c, if rateLimitOK then SendNoConnection (dataToConnectionID pkt) 0 else none, false⟩
  else
    match c.state with
    | .dead | .stateNone | .findingRoute => ⟨c, none, false⟩
    | .closedByPeer | .finWait | .problemDetectedLocally =>
      ⟨c, SendConnectionClosedOrNoConnection c, false⟩
    | .linger => ⟨c, none, false⟩
    | .connecting => ⟨c, none, false⟩
    | .connected => ⟨c, none, true⟩

/-- Modelled from the spec: ConnectionState_ClosedByPeer lives in the
connection base class outside src/.  Honoring a peer close moves the
connection to ClosedByPeer; when the connection is already in ClosedByPeer
the transition is idempotent (spec 4.5: a retransmitted close is acked
again with no further transition). -/
def ConnectionState_ClosedByPeer (c : UdpConn) (reasonCode : Nat) (debug : String) :
    UdpConn :=
  { c with state := .closedByPeer, endReason := reasonCode, endDebug := debug }

/-- The outcome of a connection-level control-message handler. -/
structure ConnEffect where
  conn : UdpConn
  out : Option ConnOut
deriving DecidableEq

/-- The connection-id match test of Received_ConnectionClosed (lines
1539-1541): the inbound to-id names us, or it is zero while the inbound
from-id is nonzero and names the peer. -/
def connectionClosedIDMatch (c : UdpConn) (msg : MsgConnectionClosed) : Prop :=
  msg.to_connection_id = c.localCID
    ∨ (msg.to_connection_id = 0 ∧ msg.from_connection_id ≠ 0
        ∧ msg.from_connection_id = c.remoteCID)

instance (c : UdpConn) (msg : MsgConnectionClosed) :
    Decidable (connectionClosedIDMatch c msg) := by
  unfold connectionClosedIDMatch; infer_instance

/-- CSteamNetworkConnectionUDP::Received_ConnectionClosed (lines 1530-1560):
send a NoConnection echo when the ids match or the global rate limiter
permits, then honor the close (transition to ClosedByPeer) exactly when the
ids match.  The source tests (match or rate-limit) once and then returns
early on a non-match; flattened here on the match test, the echo being sent
unconditionally in the match branch since the disjunction then holds. -/
def connReceived_ConnectionClosed (c : UdpConn) (msg : MsgConnectionClosed)
    (rateLimitOK : Bool) : ConnEffect :=
  if connectionClosedIDMatch c msg then
    ⟨ConnectionState_ClosedByPeer c msg.reason_code msg.debug,
      some (.noConnection msg.from_connection_id msg.to_connection_id)⟩
  else
    ⟨c, if rateLimitOK then
      some (.noConnection msg.from_connection_id msg.to_connection_id) else none⟩

/-- Modelled from the spec: ConnectionState_ProblemDetectedLocally is in the
connection base class outside src/: it records the end reason and debug text
and enters ProblemDetectedLocally; the ConnectionStateChanged override
(lines 1000-1026) then emits the teardown ConnectionClosed. -/
def ConnectionState_ProblemDetectedLocally (c : UdpConn) (reasonCode : Nat)
    (debug : String) : ConnEffect :=
  let c1 : UdpConn :=
    { c with state := .problemDetectedLocally, endReason := reasonCode, endDebug := debug }
  ⟨c1, SendConnectionClosedOrNoConnection c1⟩

/-- Parsed ConnectOK fields this layer reads. -/
structure MsgConnectOK where
  client_connection_id : Nat
  server_connection_id : Nat
  your_timestamp : Option Nat
  delay_time_usec : Nat
deriving DecidableEq

/-- CSteamNetworkConnectionUDP::Received_ConnectOK (lines 1364-1528): drop
on an accepted (child) connection; drop on a client-connection-id mismatch;
derive the remote identity (drop on failure); drop when a stored valid
remote identity differs from the derived one; dispatch by state (teardown
ack in closing states, ignore when Linger or Connected); in Connecting latch
the server connection id (rejecting one with zero low 16 bits), store the
derived identity, run the crypto handshake (external, parameter cryptoOk)
and become Connected.  The ping-sample update touches only the external
stats object and is modelled separately as connectOKPingSample. -/
def Received_ConnectOK (c : UdpConn) (isChildConnection : Bool)
    (certIdentity msgIdentity : Option (Option SNIdentity)) (allowWithoutAuth : Nat)
    (cryptoOk : Bool) (msg : MsgConnectOK) (adrFrom : NetAdr) : ConnEffect :=
  if isChildConnection then ⟨c, none⟩
  else if msg.client_connection_id ≠ c.localCID then ⟨c, none⟩
  else
    match deriveRemoteIdentity certIdentity msgIdentity allowWithoutAuth adrFrom with
    | none => ⟨c, none⟩
    | some (identityRemote, _) =>
      if c.remoteIdentity ≠ .invalid ∧ c.remoteIdentity ≠ identityRemote then ⟨c, none⟩
      else
        match c.state with
        | .dead | .stateNone | .findingRoute => ⟨c, none⟩
        | .closedByPeer | .finWait | .problemDetectedLocally =>
          ⟨c, SendConnectionClosedOrNoConnection c⟩
        | .linger | .connected => ⟨c, none⟩
        | .connecting =>
          let c1 : UdpConn := { c with remoteCID := msg.server_connection_id }
          if msg.server_connection_id % 2 ^ 16 = 0 then
            ConnectionState_ProblemDetectedLocally c1
              k_ESteamNetConnectionEnd_Remote_BadCrypt "Didnt send valid connection ID"
          else
            let c2 : UdpConn := { c1 with remoteIdentity := identityRemote }
            if ¬ cryptoOk then
              ConnectionState_ProblemDetectedLocally c2
                k_ESteamNetConnectionEnd_Remote_BadCrypt "Failed crypto init"
            else ⟨{ c2 with state := .connected }, none⟩

/-! ## Timestamp-echo freshness (ping extraction) -/

/-- The ping-sample extraction of Received_ChallengeReply (lines 1302-1315):
elapsed time is now minus the echoed timestamp as signed 64-bit arithmetic;
outside [0, 2 seconds] the sample is discarded, otherwise the recorded ping
is (elapsed + 500) / 1000 ms.  In the accepted branch elapsed is
nonnegative, so the C++ int64 division is Nat floor division. -/
def challengeReplyPingSample (usecNow your_timestamp : Int) : Option Int :=
  let usecElapsed := usecNow - your_timestamp
  if usecElapsed < 0 ∨ usecElapsed > 2 * (k_nMillion : Int) then none
  else some (((usecElapsed.toNat + 500) / 1000 : Nat) : Int)

/-- The ping-sample extraction of Received_ConnectOK (lines 1467-1480):
identical, except the peer-reported processing delay is also subtracted. -/
def connectOKPingSample (usecNow your_timestamp delay_time_usec : Int) : Option Int :=
  let usecElapsed := usecNow - your_timestamp - delay_time_usec
  if usecElapsed < 0 ∨ usecElapsed > 2 * (k_nMillion : Int) then none
  else some (((usecElapsed.toNat + 500) / 1000 : Nat) : Int)

/-! ## Concrete fixtures used to instantiate the theorems -/

/-- A concrete remote address (everything zero). -/
def adr0 : NetAdr := ⟨0, List.replicate 16 0⟩

/-- A second, distinct concrete remote address. -/
def adr1 : NetAdr := ⟨7, List.replicate 16 1⟩

/-- A concrete keyed MAC (constant zero); the theorems hold for every MAC. -/
def sip0 : SipHash := fun _ => 0

/-- A concrete connection fixture: connected, local id 5, remote id 7. -/
def conn0 : UdpConn := ⟨.connected, 5, 7, .localHost, 0, ""⟩

/-- A concrete connection fixture in ClosedByPeer. -/
def connClosed0 : UdpConn := ⟨.closedByPeer, 5, 7, .localHost, 0, ""⟩

/-- A concrete ConnectRequest: challenge 0 (the value GenerateChallenge
yields under sip0 at bucket 0 from adr0), client connection id 1. -/
def cexConnectRequestMsg : MsgConnectRequest := ⟨0, 1, none, none⟩

/-- A child table that already holds (identity of adr0, connection id 1),
pinned at the different address adr1. -/
def cexTable : ChildTable := [((.ipAddr adr0, 1), adr1)]

/-- A 40-byte ConnectRequest packet (plain envelope). -/
def cexPkt : List Nat := k_ESteamNetworkingUDPMsg_ConnectRequest :: List.replicate 39 0

/-- The duplicate-session rejection reply. -/
def cexDupReply : ListenerOut :=
  .connectionClosedReply (some 1) k_ESteamNetConnectionEnd_Misc_Generic dupSessionDebug

/-! ## Theorems -/

/-- The issued challenge carries its time bucket in the low 16 bits. -/
theorem GenerateChallenge_mod_2_16 (sip : SipHash) (nTime : Nat) (adr : NetAdr) :
    GenerateChallenge sip nTime adr % 2 ^ 16 = nTime % 2 ^ 16 := by
  show (sip (challengeHashInput nTime adr) % 2 ^ 64 / 2 ^ 16 * 2 ^ 16 + nTime % 2 ^ 16)
      % 2 ^ 16 = nTime % 2 ^ 16
  omega

/-- C1: the claim asserts the listener accepts a genuine challenge whenever
the elapsed bucket count (unsigned 16-bit) is at most 4, but the code
compares against GetChallengeTime(4 seconds) = 3: at a distance of exactly
4 buckets a genuine challenge is rejected.  Concretely, with the zero MAC,
zero address, bucket 0 and current time 4 * 2^20 us, the elapsed count is
4 <= 4 yet verification fails. -/
theorem challenge_window_counterexample :
    (GetChallengeTime (4 * 2 ^ 20) + 2 ^ 16 - 0) % 2 ^ 16 ≤ 4
    ∧ connectRequestChallengeOK (fun _ => 0)
        (GenerateChallenge (fun _ => 0) 0 ⟨0, List.replicate 16 0⟩)
        ⟨0, List.replicate 16 0⟩ (4 * 2 ^ 20) = false := by
  exact ⟨by decide, by decide⟩

/-- C1 (amended): a ConnectRequest carrying GenerateChallenge(t, addr) from
addr passes verification whenever the elapsed bucket count, computed with
unsigned 16-bit wraparound, is at most GetChallengeTime(4_000_000 us) = 3;
and any carried challenge that differs from the value recomputed for its own
low-16-bit time bucket is rejected. -/
theorem challenge_verification_sound (sip : SipHash) (adr : NetAdr) (t usecNow : Nat)
    (ht : t < 2 ^ 16)
    (hfresh : (GetChallengeTime usecNow + 2 ^ 16 - t) % 2 ^ 16
      ≤ GetChallengeTime (4 * k_nMillion)) :
    connectRequestChallengeOK sip (GenerateChallenge sip t adr) adr usecNow = true
    ∧ ∀ chal : Nat, GenerateChallenge sip (chal % 2 ^ 16) adr ≠ chal →
        connectRequestChallengeOK sip chal adr usecNow = false := by
  constructor
  · have hmod : GenerateChallenge sip t adr % 2 ^ 16 = t := by
      rw [GenerateChallenge_mod_2_16, Nat.mod_eq_of_lt ht]
    simp only [connectRequestChallengeOK, hmod]
    rw [if_neg (by omega)]
    simp
  · intro chal hne
    simp only [connectRequestChallengeOK]
    split
    · rfl
    · simpa using hne

/-- Witness for C1 at sip = const 0, addr = 0, bucket 0, time 0. -/
theorem challenge_verification_sound_witness :
    connectRequestChallengeOK (fun _ => 0)
      (GenerateChallenge (fun _ => 0) 0 ⟨0, List.replicate 16 0⟩)
      ⟨0, List.replicate 16 0⟩ 0 = true :=
  (challenge_verification_sound (fun _ => 0) ⟨0, List.replicate 16 0⟩ 0 0
    (by decide) (by decide)).1

/-- Indexing into the zero-padding region of a padded buffer yields zero. -/
theorem append_replicate_getD_zero (l : List Nat) (k i : Nat) (h1 : l.length ≤ i)
    (h2 : i < l.length + k) : (l ++ List.replicate k 0).getD i 1 = 0 := by
  rw [List.getD_append_right _ _ _ _ h1]
  rw [List.getD_eq_getElem _ _ (by simpa using by omega)]
  simp

/-- The padded byte image has length max(3 + body, 512). -/
theorem paddedPacketBytes_length (nMsgID : Nat) (body : List Nat) :
    (paddedPacketBytes nMsgID body).length
      = max (3 + body.length) k_cbSteamNetworkingMinPaddedPacketSize := by
  simp only [paddedPacketBytes, List.length_append, List.length_replicate,
    List.length_cons, List.length_nil, k_cbSteamNetworkingMinPaddedPacketSize]
  omega

/-- Every byte of the padded image past the header and body is zero. -/
theorem paddedPacketBytes_tail_zero (nMsgID : Nat) (body : List Nat) (i : Nat)
    (h1 : 3 + body.length ≤ i) (h2 : i < (paddedPacketBytes nMsgID body).length) :
    (paddedPacketBytes nMsgID body).getD i 1 = 0 := by
  rw [paddedPacketBytes_length] at h2
  show (_ ++ List.replicate _ 0).getD i 1 = 0
  apply append_replicate_getD_zero
  · simp only [List.length_append, List.length_cons, List.length_nil]
    omega
  · simp only [List.length_append, List.length_cons, List.length_nil,
      k_cbSteamNetworkingMinPaddedPacketSize] at h2 ⊢
    omega

/-- C4: every packet either SendPaddedMsg emits is at least 512 bytes long,
and every byte past the 3-byte header plus serialized body, up to the sent
length, is zero.  ChallengeRequest and ConnectionClosed are sent only
through these two functions. -/
theorem sendPaddedMsg_min_size_and_zero_tail (nMsgID : Nat) (body : List Nat) :
    (∀ pkt : List Nat, connSendPaddedMsg nMsgID body = some pkt →
        512 ≤ pkt.length
        ∧ ∀ i : Nat, 3 + body.length ≤ i → i < pkt.length → pkt.getD i 1 = 0)
    ∧ (512 ≤ (listenerSendPaddedMsg nMsgID body).length
        ∧ ∀ i : Nat, 3 + body.length ≤ i → i < (listenerSendPaddedMsg nMsgID body).length →
            (listenerSendPaddedMsg nMsgID body).getD i 1 = 0) := by
  have hlen := paddedPacketBytes_length nMsgID body
  have h512 : 512 ≤ (paddedPacketBytes nMsgID body).length := by
    rw [hlen]; simp [k_cbSteamNetworkingMinPaddedPacketSize]
  refine ⟨fun pkt hpkt => ?_, h512, fun i h1 h2 => paddedPacketBytes_tail_zero _ _ i h1 h2⟩
  simp only [connSendPaddedMsg] at hpkt
  split at hpkt
  · exact absurd hpkt (by simp)
  · obtain rfl : paddedPacketBytes nMsgID body = pkt := by simpa using hpkt
    exact ⟨h512, fun i h1 h2 => paddedPacketBytes_tail_zero _ _ i h1 h2⟩

set_option maxRecDepth 4000 in
/-- Witness for C4 at msg id 36 with a 1-byte body. -/
theorem sendPaddedMsg_min_size_and_zero_tail_witness :
    512 ≤ (listenerSendPaddedMsg 36 [7]).length
    ∧ (listenerSendPaddedMsg 36 [7]).getD 100 1 = 0 :=
  ⟨(sendPaddedMsg_min_size_and_zero_tail 36 [7]).2.1,
    (sendPaddedMsg_min_size_and_zero_tail 36 [7]).2.2 100 (by decide) (by decide)⟩

/-- C7: the padded-envelope decoder fails exactly when the packet is under
512 bytes, the header msg_length is zero (the uint16 cannot be negative),
3 + msg_length overruns the packet, or the body fails to parse as the
expected protobuf kind; in every other case the parsed body message is
dispatched. -/
theorem parsePaddedPacket_spec {M : Type} (parse : List Nat → Option M)
    (pkt : List Nat) :
    (ParsePaddedPacket parse pkt = none ↔
      pkt.length < 512 ∨ paddedMsgLength pkt = 0
        ∨ pkt.length < 3 + paddedMsgLength pkt ∨ parse (paddedBody pkt) = none)
    ∧ ∀ m : M, ParsePaddedPacket parse pkt = some m → parse (paddedBody pkt) = some m := by
  simp only [ParsePaddedPacket, k_cbSteamNetworkingMinPaddedPacketSize]
  constructor
  · split
    · simp; omega
    · split
      · constructor
        · intro _; omega
        · intro _; rfl
      · constructor
        · intro h; exact Or.inr (Or.inr (Or.inr h))
        · intro h
          rcases h with h | h | h | h
          · omega
          · omega
          · omega
          · exact h
  · intro m hm
    split at hm
    · exact absurd hm (by simp)
    · split at hm
      · exact absurd hm (by simp)
      · exact hm

set_option maxRecDepth 4000 in
/-- Witness for C7: a 512-byte packet with msg_length 1 dispatches its
1-byte body. -/
theorem parsePaddedPacket_spec_witness :
    some (paddedBody (36 :: 1 :: 0 :: 9 :: List.replicate 508 0)) = some [9] :=
  (parsePaddedPacket_spec (fun l => some l)
    (36 :: 1 :: 0 :: 9 :: List.replicate 508 0)).2 [9] (by decide)

/-- C8: a timestamp echo in a ChallengeReply or a ConnectOK yields no ping
sample exactly when the computed elapsed time lies outside
[0, 2_000_000] us; an accepted sample p is the floor of
(elapsed + 500) / 1000, pinned here by 1000 p <= elapsed + 500 <
1000 (p + 1). -/
theorem timestamp_echo_freshness (usecNow your_timestamp delay : Int) :
    (challengeReplyPingSample usecNow your_timestamp = none ↔
      usecNow - your_timestamp < 0 ∨ usecNow - your_timestamp > 2000000)
    ∧ (∀ p : Int, challengeReplyPingSample usecNow your_timestamp = some p →
        0 ≤ p ∧ 1000 * p ≤ usecNow - your_timestamp + 500
          ∧ usecNow - your_timestamp + 500 < 1000 * (p + 1))
    ∧ (connectOKPingSample usecNow your_timestamp delay = none ↔
      usecNow - your_timestamp - delay < 0 ∨ usecNow - your_timestamp - delay > 2000000)
    ∧ (∀ p : Int, connectOKPingSample usecNow your_timestamp delay = some p →
        0 ≤ p ∧ 1000 * p ≤ usecNow - your_timestamp - delay + 500
          ∧ usecNow - your_timestamp - delay + 500 < 1000 * (p + 1)) := by
  refine ⟨?_, ?_, ?_, ?_⟩
  · simp only [challengeReplyPingSample, k_nMillion]
    split
    · simp; omega
    · simp; omega
  · intro p hp
    simp only [challengeReplyPingSample, k_nMillion] at hp
    split at hp
    · exact absurd hp (by simp)
    · rename_i h
      obtain rfl : ((((usecNow - your_timestamp).toNat + 500) / 1000 : Nat) : Int) = p := by
        simpa using hp
      push_cast at h ⊢
      omega
  · simp only [connectOKPingSample, k_nMillion]
    split
    · simp; omega
    · simp; omega
  · intro p hp
    simp only [connectOKPingSample, k_nMillion] at hp
    split at hp
    · exact absurd hp (by simp)
    · rename_i h
      obtain rfl :
          ((((usecNow - your_timestamp - delay).toNat + 500) / 1000 : Nat) : Int) = p := by
        simpa using hp
      push_cast at h ⊢
      omega

/-- Witness for C8 at now = 1_501_000, echo = 1000, delay = 500_000: the
accepted samples 1500 ms and 1000 ms satisfy the division bounds. -/
theorem timestamp_echo_freshness_witness :
    ((0 : Int) ≤ 1500 ∧ (1000 : Int) * 1500 ≤ (1501000 : Int) - 1000 + 500
      ∧ (1501000 : Int) - 1000 + 500 < (1000 : Int) * (1500 + 1))
    ∧ ((0 : Int) ≤ 1000 ∧ (1000 : Int) * 1000 ≤ (1501000 : Int) - 1000 - 500000 + 500
      ∧ (1501000 : Int) - 1000 - 500000 + 500 < (1000 : Int) * (1000 + 1)) :=
  ⟨(timestamp_echo_freshness 1501000 1000 500000).2.1 1500 (by decide),
    (timestamp_echo_freshness 1501000 1000 500000).2.2.2 1000 (by decide)⟩

/-- C5: an inbound data packet whose to_connection_id differs from the local
connection id never enters the decrypt path, leaves the connection
unchanged, and triggers a NoConnection{from = received to-id, to = 0} reply
only when the global spam rate limiter permits (and the received id is
nonzero, since SendNoConnection refuses an all-zero message). -/
theorem data_wrong_connection_id_routing (c : UdpConn) (pkt : List Nat)
    (rateLimitOK : Bool) (hlen : 7 ≤ pkt.length)
    (hcid : dataToConnectionID pkt ≠ c.localCID) :
    (Received_Data c pkt rateLimitOK).enteredDecrypt = false
    ∧ (Received_Data c pkt rateLimitOK).conn = c
    ∧ ((Received_Data c pkt rateLimitOK).out ≠ none → rateLimitOK = true)
    ∧ (rateLimitOK = true → dataToConnectionID pkt ≠ 0 →
        (Received_Data c pkt rateLimitOK).out
          = some (.noConnection 0 (dataToConnectionID pkt))) := by
  have hmain : Received_Data c pkt rateLimitOK
      = ⟨c, if rateLimitOK then SendNoConnection (dataToConnectionID pkt) 0 else none,
          false⟩ := by
    unfold Received_Data
    rw [if_neg (by omega : ¬ pkt.length < 7), if_pos hcid]
  rw [hmain]
  refine ⟨rfl, rfl, ?_, ?_⟩
  · cases rateLimitOK
    · intro h; simp at h
    · intro _; rfl
  · rintro rfl hnz
    show (if (true : Bool) then SendNoConnection (dataToConnectionID pkt) 0 else none) = _
    rw [if_pos (by trivial)]
    unfold SendNoConnection
    rw [if_neg (by tauto)]

/-- Witness for C5: a stray data packet addressed to session 9 arriving on
the connection with local id 5. -/
theorem data_wrong_connection_id_routing_witness :
    (Received_Data conn0 [128, 9, 0, 0, 0, 1, 2] true).enteredDecrypt = false
    ∧ (Received_Data conn0 [128, 9, 0, 0, 0, 1, 2] true).out
        = some (.noConnection 0 9) := by
  have h := data_wrong_connection_id_routing conn0 [128, 9, 0, 0, 0, 1, 2] true
    (by decide) (by decide)
  exact ⟨h.1, h.2.2.2 rfl (by decide)⟩

/-- C6: the claim makes the retransmit ack subject to the global rate
limiter, but the code sends the ack whenever the connection ids match,
short-circuiting the limiter: with the limiter refusing, a matching
retransmitted ConnectionClosed in ClosedByPeer is still acked. -/
theorem closedByPeer_ack_counterexample :
    (connReceived_ConnectionClosed connClosed0 ⟨5, 7, 0, ""⟩ false).out
      = some (.noConnection 7 5) := by decide

/-- C6 (amended): in ClosedByPeer, each receipt of a retransmitted
ConnectionClosed whose connection ids match produces exactly one
NoConnection ack regardless of the rate limiter (the limiter gates only
acks for non-matching ids), and the connection stays in ClosedByPeer. -/
theorem closedByPeer_retransmit_ack (c : UdpConn) (msg : MsgConnectionClosed)
    (rateLimitOK : Bool) (hstate : c.state = .closedByPeer)
    (hmatch : connectionClosedIDMatch c msg) :
    (connReceived_ConnectionClosed c msg rateLimitOK).out
      = some (.noConnection msg.from_connection_id msg.to_connection_id)
    ∧ (connReceived_ConnectionClosed c msg rateLimitOK).conn.state = .closedByPeer := by
  unfold connReceived_ConnectionClosed
  rw [if_pos hmatch]
  exact ⟨rfl, rfl⟩

/-- Witness for C6 with the limiter permitting. -/
theorem closedByPeer_retransmit_ack_witness :
    (connReceived_ConnectionClosed connClosed0 ⟨5, 7, 9, "bye"⟩ true).out
      = some (.noConnection 7 5)
    ∧ (connReceived_ConnectionClosed connClosed0 ⟨5, 7, 9, "bye"⟩ true).conn.state
      = .closedByPeer :=
  closedByPeer_retransmit_ack connClosed0 ⟨5, 7, 9, "bye"⟩ true (by decide)
    (by exact Or.inl (by decide))

/-- C9: the claim concludes that every NoConnection a connection sends
carries a nonzero connection id, but Received_ConnectionClosed builds its
ack directly rather than through SendNoConnection: an inbound
ConnectionClosed with both ids zero (non-matching, limiter permitting)
is answered with a NoConnection whose two id fields are both absent. -/
theorem noConnection_all_zero_counterexample :
    (connReceived_ConnectionClosed conn0 ⟨0, 0, 0, ""⟩ true).out
      = some (.noConnection 0 0) := by decide

/-- C9 (amended): SendNoConnection never emits a packet when both its
arguments are zero, so every NoConnection sent through SendNoConnection
carries at least one nonzero connection id field; the ack path of
Received_ConnectionClosed bypasses SendNoConnection and is not covered. -/
theorem sendNoConnection_nonzero (unFromConnectionID unToConnectionID : Nat) :
    SendNoConnection 0 0 = none
    ∧ ∀ out : ConnOut, SendNoConnection unFromConnectionID unToConnectionID = some out →
        out = .noConnection unToConnectionID unFromConnectionID
        ∧ (unFromConnectionID ≠ 0 ∨ unToConnectionID ≠ 0) := by
  refine ⟨by simp [SendNoConnection], fun out hout => ?_⟩
  unfold SendNoConnection at hout
  split at hout
  · exact absurd hout (by simp)
  · rename_i h
    exact ⟨by simpa using hout.symm, by tauto⟩

/-- Witness for C9 at from-id 5, to-id 0. -/
theorem sendNoConnection_nonzero_witness :
    ConnOut.noConnection 0 5 = .noConnection 0 5 ∧ ((5 : Nat) ≠ 0 ∨ (0 : Nat) ≠ 0) :=
  (sendNoConnection_nonzero 5 0).2 (.noConnection 0 5) (by decide)

/-- C10: a ConnectOK whose derived remote identity differs from a stored
valid remote identity is dropped with the connection record (state, remote
identity, remote connection id) unchanged. -/
theorem connectOK_identity_mismatch_drop (c : UdpConn) (isChildConnection : Bool)
    (certIdentity msgIdentity : Option (Option SNIdentity)) (allowWithoutAuth : Nat)
    (cryptoOk : Bool) (msg : MsgConnectOK) (adrFrom : NetAdr)
    (idr : SNIdentity) (b : Bool)
    (hvalid : c.remoteIdentity ≠ .invalid)
    (hder : deriveRemoteIdentity certIdentity msgIdentity allowWithoutAuth adrFrom
      = some (idr, b))
    (hne : idr ≠ c.remoteIdentity) :
    Received_ConnectOK c isChildConnection certIdentity msgIdentity allowWithoutAuth
      cryptoOk msg adrFrom = ⟨c, none⟩ := by
  unfold Received_ConnectOK
  split
  · rfl
  · split
    · rfl
    · rw [hder]
      dsimp only
      rw [if_pos ⟨hvalid, fun hEq => hne hEq.symm⟩]

/-- Witness for C10: stored identity steamID 11, cert asserts steamID 12. -/
theorem connectOK_identity_mismatch_drop_witness :
    Received_ConnectOK ⟨.connecting, 5, 7, .steamID 11, 0, ""⟩ false
      (some (some (.steamID 12))) (some none) 1 true ⟨5, 70000, none, 0⟩ adr0
      = ⟨⟨.connecting, 5, 7, .steamID 11, 0, ""⟩, none⟩ :=
  connectOK_identity_mismatch_drop ⟨.connecting, 5, 7, .steamID 11, 0, ""⟩ false
    (some (some (.steamID 12))) (some none) 1 true ⟨5, 70000, none, 0⟩ adr0
    (.steamID 12) true (by decide) (by decide) (by decide)

/-- C3: a ConnectRequest whose (derived identity, client connection id) pair
is already in the child table is answered with a padded
ConnectionClosed{to = client id, reason = Misc_Generic} and the table is
returned unchanged (no new connection, existing entry untouched); moreover
the handler preserves key uniqueness of any table, inserting a key only
when absent. -/
theorem duplicate_session_unique_child (sip : SipHash) (allowWithoutAuth : Nat)
    (certIdentity msgIdentity : Option (Option SNIdentity)) (acceptOk : Bool)
    (tbl : ChildTable) (msg : MsgConnectRequest) (adrFrom : NetAdr) (usecNow : Nat)
    (idr : SNIdentity) (b : Bool)
    (hchal : connectRequestChallengeOK sip msg.challenge adrFrom usecNow = true)
    (hccid : msg.client_connection_id ≠ 0)
    (hder : deriveRemoteIdentity certIdentity msgIdentity allowWithoutAuth adrFrom
      = some (idr, b))
    (hdup : (idr, msg.client_connection_id) ∈ tbl.map Prod.fst) :
    Received_ConnectRequest sip allowWithoutAuth certIdentity msgIdentity acceptOk
        tbl msg adrFrom usecNow
      = (tbl, some (.connectionClosedReply (some msg.client_connection_id)
          k_ESteamNetConnectionEnd_Misc_Generic dupSessionDebug))
    ∧ ∀ tbl2 : ChildTable, (tbl2.map Prod.fst).Nodup →
        (((Received_ConnectRequest sip allowWithoutAuth certIdentity msgIdentity
          acceptOk tbl2 msg adrFrom usecNow).1).map Prod.fst).Nodup := by
  constructor
  · unfold Received_ConnectRequest
    rw [if_neg (by simp [hchal]), if_neg (by simpa using hccid), hder]
    dsimp only
    rw [if_pos ?_]
    rw [List.any_eq_true]
    obtain ⟨e, he, hkey⟩ := List.mem_map.mp hdup
    exact ⟨e, he, by simp [hkey]⟩
  · intro tbl2 hnodup
    unfold Received_ConnectRequest
    by_cases h1 : connectRequestChallengeOK sip msg.challenge adrFrom usecNow = true
    · rw [if_neg (by simp [h1])]
      by_cases h2 : msg.client_connection_id = 0
      · rw [if_pos h2]
        exact hnodup
      · rw [if_neg h2]
        rcases hdd : deriveRemoteIdentity certIdentity msgIdentity allowWithoutAuth
          adrFrom with _ | ⟨idr2, b2⟩
        · exact hnodup
        · dsimp only
          by_cases h3 :
              (tbl2.any fun e => decide (e.1 = (idr2, msg.client_connection_id))) = true
          · rw [if_pos h3]
            exact hnodup
          · rw [if_neg h3]
            cases acceptOk with
            | false =>
              rw [if_neg (by simp)]
              exact hnodup
            | true =>
              rw [if_pos rfl]
              dsimp only
              rw [List.map_cons, List.nodup_cons]
              refine ⟨fun hmem => ?_, hnodup⟩
              rw [List.any_eq_true] at h3
              obtain ⟨e, he, hkey⟩ := List.mem_map.mp hmem
              exact h3 ⟨e, he, by simp [hkey]⟩
    · rw [if_pos (by simp [h1])]
      exact hnodup

/-- Witness for C3: the fixture table already holds (adr0 identity, id 1);
an anonymous ConnectRequest with client id 1 arriving from adr0. -/
theorem duplicate_session_unique_child_witness :
    Received_ConnectRequest sip0 1 (some none) (some none) true cexTable
        cexConnectRequestMsg adr0 0
      = (cexTable, some (.connectionClosedReply (some 1)
          k_ESteamNetConnectionEnd_Misc_Generic dupSessionDebug))
    ∧ ((cexTable.map Prod.fst).Nodup →
        (((Received_ConnectRequest sip0 1 (some none) (some none) true cexTable
          cexConnectRequestMsg adr0 0).1).map Prod.fst).Nodup) := by
  have h := duplicate_session_unique_child sip0 1 (some none) (some none) true
    cexTable cexConnectRequestMsg adr0 0 (.ipAddr adr0) false
    (by decide) (by decide) (by decide) (by decide)
  exact ⟨h.1, h.2 cexTable⟩

/-- Varint length bound, by induction on the fuel. -/
theorem varintFuel_length_le (fuel : Nat) : ∀ n k : Nat, n < 2 ^ (7 * (k + 1)) →
    (varintFuel fuel n).length ≤ k + 1 := by
  induction fuel with
  | zero =>
    intro n k _
    simp [varintFuel]
  | succ fuel ih =>
    intro n k hn
    unfold varintFuel
    split
    · simp
    · rename_i hge
      cases k with
      | zero =>
        exfalso
        norm_num at hn
        omega
      | succ k =>
        simp only [List.length_cons]
        have h2 : n / 128 < 2 ^ (7 * (k + 1)) := by
          rw [Nat.div_lt_iff_lt_mul (by norm_num : (0 : Nat) < 128)]
          calc n < 2 ^ (7 * (k + 1 + 1)) := hn
            _ = 2 ^ (7 * (k + 1)) * 128 := by
              rw [Nat.mul_succ, pow_add]
              norm_num
        have := ih (n / 128) k h2
        omega

/-- Varint length bound: a value below 2^(7(k+1)) encodes in at most
k + 1 bytes. -/
theorem varint_length_le (n k : Nat) (hn : n < 2 ^ (7 * (k + 1))) :
    (varint n).length ≤ k + 1 :=
  varintFuel_length_le n n k hn

/-- A u32 varint field is at most 6 bytes. -/
theorem pbVarintField_u32_length (f v : Nat) :
    (pbVarintField f (v % 2 ^ 32)).length ≤ 6 := by
  have hb := varint_length_le (v % 2 ^ 32) 4
    (lt_of_lt_of_le (Nat.mod_lt _ (by norm_num)) (by norm_num))
  simp only [pbVarintField, List.length_cons]
  omega

/-- A u64 varint field is at most 11 bytes. -/
theorem pbVarintField_u64_length (f v : Nat) :
    (pbVarintField f (v % 2 ^ 64)).length ≤ 11 := by
  have hb := varint_length_le (v % 2 ^ 64) 9
    (lt_of_lt_of_le (Nat.mod_lt _ (by norm_num)) (by norm_num))
  simp only [pbVarintField, List.length_cons]
  omega

/-- A serialized ChallengeReply body is at most 34 bytes. -/
theorem serializeChallengeReply_length (m : MsgChallengeReply) :
    (serializeChallengeReply m).length ≤ 34 := by
  have h1 := pbVarintField_u32_length 1 m.connection_id
  have h2 := pbVarintField_u64_length 2 m.challenge
  have h3 := pbVarintField_u64_length 3 m.your_timestamp
  have h4 := pbVarintField_u32_length 4 m.protocol_version
  simp only [serializeChallengeReply, List.length_append]
  omega

/-- A serialized NoConnection body is at most 12 bytes. -/
theorem serializeNoConnection_length (t f : Nat) :
    (serializeNoConnection t f).length ≤ 12 := by
  have h1 : (if t ≠ 0 then pbVarintField 1 (t % 2 ^ 32) else []).length ≤ 6 := by
    split
    · exact pbVarintField_u32_length 1 t
    · simp
  have h2 : (if f ≠ 0 then pbVarintField 2 (f % 2 ^ 32) else []).length ≤ 6 := by
    split
    · exact pbVarintField_u32_length 2 f
    · simp
  simp only [serializeNoConnection, List.length_append]
  omega

/-- A successfully decoded padded envelope came from a packet of at least
512 bytes. -/
theorem parsePaddedPacket_some_length {M : Type} (parse : List Nat → Option M)
    (pkt : List Nat) (m : M) (h : ParsePaddedPacket parse pkt = some m) :
    512 ≤ pkt.length := by
  unfold ParsePaddedPacket at h
  split at h
  · exact absurd h (by simp)
  · rename_i hlt
    simp only [k_cbSteamNetworkingMinPaddedPacketSize] at hlt
    omega

/-- A ChallengeReply on the wire is at most 35 bytes. -/
theorem listenerWire_challengeReply_length (m : MsgChallengeReply) (wire : List Nat)
    (h : listenerWire (.challengeReply m) = some wire) : wire.length ≤ 35 := by
  have hb := serializeChallengeReply_length m
  simp only [listenerWire, plainWire] at h
  split at h
  · exact absurd h (by simp)
  · obtain rfl := Option.some.inj h
    simp only [List.length_cons]
    omega

/-- A NoConnection on the wire is at most 13 bytes. -/
theorem listenerWire_noConnection_length (t f : Nat) (wire : List Nat)
    (h : listenerWire (.noConnectionReply t f) = some wire) : wire.length ≤ 13 := by
  have hb := serializeNoConnection_length t f
  simp only [listenerWire, plainWire] at h
  split at h
  · exact absurd h (by simp)
  · obtain rfl := Option.some.inj h
    simp only [List.length_cons]
    omega

/-- C2 (amended): every reply the unknown-host demultiplexer emits on a path
that does not require challenge verification (the ChallengeReply to a
ChallengeRequest, the NoConnection ack to an unknown-host ConnectionClosed)
fits within the provoking packet, which those paths require to be at least
512 bytes; a reply on the ConnectRequest path is produced only after the
source passed challenge verification (its duplicate-session
ConnectionClosed is padded to 512 bytes and may exceed the inbound
packet). -/
theorem no_amplification_before_verification (sip : SipHash) (allowWithoutAuth : Nat)
    (parseChallengeRequest : List Nat → Option MsgChallengeRequest)
    (parseConnectRequest : List Nat → Option MsgConnectRequest)
    (parseConnectionClosed : List Nat → Option MsgConnectionClosed)
    (certIdentity msgIdentity : Option (Option SNIdentity)) (acceptOk : Bool)
    (tbl : ChildTable) (pkt : List Nat) (adrFrom : NetAdr) (usecNow : Nat) :
    (pkt.getD 0 0 ≠ k_ESteamNetworkingUDPMsg_ConnectRequest →
      ∀ (out : ListenerOut) (wire : List Nat),
        (ReceivedFromUnknownHost sip allowWithoutAuth parseChallengeRequest
          parseConnectRequest parseConnectionClosed certIdentity msgIdentity
          acceptOk tbl pkt adrFrom usecNow).2 = some out →
        listenerWire out = some wire → wire.length ≤ pkt.length)
    ∧ (∀ out : ListenerOut,
        (ReceivedFromUnknownHost sip allowWithoutAuth parseChallengeRequest
          parseConnectRequest parseConnectionClosed certIdentity msgIdentity
          acceptOk tbl pkt adrFrom usecNow).2 = some out →
        pkt.getD 0 0 = k_ESteamNetworkingUDPMsg_ConnectRequest →
        ∃ m : MsgConnectRequest, parseConnectRequest (pkt.drop 1) = some m
          ∧ connectRequestChallengeOK sip m.challenge adrFrom usecNow = true) := by
  constructor
  · intro hne out wire hout hwire
    unfold ReceivedFromUnknownHost at hout
    by_cases hl : pkt.length < 5
    · rw [if_pos hl] at hout
      simp at hout
    · rw [if_neg hl] at hout
      by_cases hb : (pkt.getD 0 0).testBit 7 = true
      · rw [if_pos hb] at hout
        simp at hout
      · rw [if_neg hb] at hout
        by_cases h1 : pkt.getD 0 0 = k_ESteamNetworkingUDPMsg_ChallengeRequest
        · rw [if_pos h1] at hout
          cases hp : ParsePaddedPacket parseChallengeRequest pkt with
          | none =>
            rw [hp] at hout
            simp at hout
          | some m =>
            rw [hp] at hout
            have hpkt := parsePaddedPacket_some_length parseChallengeRequest pkt m hp
            dsimp only at hout
            unfold Received_ChallengeRequest at hout
            split at hout
            · exact absurd hout (by simp)
            · obtain rfl := Option.some.inj hout
              have hw := listenerWire_challengeReply_length _ wire hwire
              omega
        · rw [if_neg h1, if_neg hne] at hout
          by_cases h3 : pkt.getD 0 0 = k_ESteamNetworkingUDPMsg_ConnectionClosed
          · rw [if_pos h3] at hout
            cases hp : ParsePaddedPacket parseConnectionClosed pkt with
            | none =>
              rw [hp] at hout
              simp at hout
            | some m =>
              rw [hp] at hout
              have hpkt := parsePaddedPacket_some_length parseConnectionClosed pkt m hp
              dsimp only [listenerReceived_ConnectionClosed] at hout
              obtain rfl := Option.some.inj hout
              have hw := listenerWire_noConnection_length _ _ wire hwire
              omega
          · rw [if_neg h3] at hout
            simp at hout
  · intro out hout htag
    unfold ReceivedFromUnknownHost at hout
    by_cases hl : pkt.length < 5
    · rw [if_pos hl] at hout
      simp at hout
    · rw [if_neg hl] at hout
      by_cases hb : (pkt.getD 0 0).testBit 7 = true
      · rw [if_pos hb] at hout
        simp at hout
      · rw [if_neg hb] at hout
        rw [if_neg (by rw [htag]; decide), if_pos htag] at hout
        cases hp : parseConnectRequest (pkt.drop 1) with
        | none =>
          rw [hp] at hout
          simp at hout
        | some m =>
          rw [hp] at hout
          refine ⟨m, rfl, ?_⟩
          dsimp only at hout
          unfold Received_ConnectRequest at hout
          split at hout
          · exact absurd hout (by simp)
          · rename_i hok
            simpa using hok

set_option maxRecDepth 8000 in
/-- Witness for C2: an unknown-host ConnectionClosed envelope of exactly 512
bytes whose 5-byte NoConnection ack fits well inside it. -/
theorem no_amplification_before_verification_witness :
    listenerWire (.noConnectionReply 7 5)
        = some (k_ESteamNetworkingUDPMsg_NoConnection % 256 :: serializeNoConnection 7 5)
    ∧ (k_ESteamNetworkingUDPMsg_NoConnection % 256 :: serializeNoConnection 7 5).length
        ≤ (k_ESteamNetworkingUDPMsg_ConnectionClosed :: 1 :: 0 :: 9
            :: List.replicate 508 0).length := by
  constructor
  · decide
  · exact (no_amplification_before_verification sip0 1 (fun _ => none) (fun _ => none)
      (fun _ => some ⟨5, 7, 0, ""⟩) (some none) (some none) true [] (36 :: 1 :: 0 :: 9
        :: List.replicate 508 0) adr0 0).1 (by decide) (.noConnectionReply 7 5) _
      (by decide) (by decide)

set_option maxRecDepth 8000 in
/-- C2 counterexample: the claim asserts the duplicate-session
ConnectionClosed reply never exceeds the packet that provoked it, but that
reply is padded to 512 bytes while the provoking ConnectRequest is a plain
envelope: a parseable 40-byte ConnectRequest hitting the duplicate-session
path triggers a 512-byte reply. -/
theorem amplification_counterexample :
    cexPkt.length = 40
    ∧ (ReceivedFromUnknownHost sip0 1 (fun _ => none)
        (fun _ => some cexConnectRequestMsg) (fun _ => none) (some none) (some none)
        true cexTable cexPkt adr0 0).2 = some cexDupReply
    ∧ (listenerWire cexDupReply).map List.length = some 512
    ∧ 40 < 512 := by
  exact ⟨by decide, by decide, by decide, by decide⟩

end UdpTransport
